import Mathlib

/-!
Verification of the ChatMock gateway (Python) against its natural-language
specification.  Each Python function that a claim depends on is shallowly
embedded as an executable Lean definition; theorems below settle the claims.

Conventions of the embedding:
* Python `str` is Lean `String`; character-level operations (`strip`, `lower`,
  `split`, `endswith`) are implemented structurally over `String.data` so that
  all definitions evaluate by `decide`/`rfl`.
* Python `None`-able values are `Option`.
* Python dicts whose key order matters are association lists
  `List (String × PyVal)`; `dict.get(k)` is `getKey` (first match).
* Python stdlib primitives that the repository merely calls
  (sha256, uuid4, base64 decoding, UTF-8 decoding, `json.loads`,
  `json.dumps` string escaping) are taken as abstract function parameters:
  the repository's own control flow around them is embedded concretely.
-/

/-! ## String helpers (Python str semantics, structural over `List Char`) -/

/-- Lowercase every character, as Python `str.lower()` does for ASCII. -/
def lowerChars (l : List Char) : List Char := l.map Char.toLower

/-- Python `str.endswith(suffix)`. -/
def endsWithChars (suffix l : List Char) : Bool := suffix.isSuffixOf l

/-- Python `str.strip()`: drop leading and trailing whitespace. -/
def pyStripChars (l : List Char) : List Char :=
  ((l.dropWhile Char.isWhitespace).reverse.dropWhile Char.isWhitespace).reverse

/-- Python `str.strip()` on `String`. -/
def pyStrip (s : String) : String := (pyStripChars s.data).asString

/-- Python `s.strip().lower()` (used by `build_reasoning_param`). -/
def pyNorm (s : String) : String := (lowerChars (pyStripChars s.data)).asString

/-- The part of the string before the first `:` — Python `s.split(":", 1)[0]`. -/
def takeUntilColon : List Char → List Char
  | [] => []
  | c :: rest => if c = ':' then [] else c :: takeUntilColon rest

/-! ## A small model of Python JSON-like values -/

/-- Python values as they appear in request payloads: strings, booleans,
integers, lists, dicts (ordered association lists) and `None`. -/
inductive PyVal where
  | str (s : String)
  | bool (b : Bool)
  | int (n : Int)
  | list (l : List PyVal)
  | dict (l : List (String × PyVal))
  | none
deriving Repr

/-- Python `d.get(k)`: value of the first matching key, if any. -/
def getKey (d : List (String × PyVal)) (k : String) : Option PyVal :=
  (d.find? (fun kv => kv.1 == k)).map (fun kv => kv.2)

/-- Python `d[k] = v`: replace the value in place if the key exists
(dicts keep the key's original position), otherwise append. -/
def setKey (d : List (String × PyVal)) (k : String) (v : PyVal) : List (String × PyVal) :=
  if d.any (fun kv => kv.1 == k) then
    d.map (fun kv => if kv.1 == k then (k, v) else kv)
  else d ++ [(k, v)]

/-! ## chatmock/reasoning.py — `build_reasoning_param` (claim C6) -/

/-- The per-request `reasoning` override dict: its `effort` and `summary`
entries, already coerced to strings (`str(overrides.get("effort", ""))`). -/
structure ReasoningOverrides where
  effort : Option String
  summary : Option String
deriving DecidableEq, Repr

/-- The returned reasoning parameter: the `summary` key is omitted
(`Option.none`) when the computed summary is `"none"`. -/
structure ReasoningParam where
  effort : String
  summary : Option String
deriving DecidableEq, Repr

/-- `valid_efforts` of `build_reasoning_param` (reasoning.py line 12). -/
def validEfforts : List String := ["low", "medium", "high", "none"]

/-- `valid_summaries` of `build_reasoning_param` (reasoning.py line 13). -/
def validSummaries : List String := ["auto", "concise", "detailed", "none"]

/-- Embedding of `build_reasoning_param(base_effort, base_summary, overrides)`
(chatmock/reasoning.py lines 6-30). -/
def build_reasoning_param (baseEffort baseSummary : String)
    (overrides : Option ReasoningOverrides) : ReasoningParam :=
  let effort := pyNorm baseEffort
  let summary := pyNorm baseSummary
  let oEff := match overrides with
    | some o => pyNorm (o.effort.getD "")
    | Option.none => ""
  let oSum := match overrides with
    | some o => pyNorm (o.summary.getD "")
    | Option.none => ""
  let effort := if oEff ∈ validEfforts ∧ oEff ≠ "" then oEff else effort
  let summary := if oSum ∈ validSummaries ∧ oSum ≠ "" then oSum else summary
  let effort := if effort ∈ validEfforts then effort else "medium"
  let summary := if summary ∈ validSummaries then summary else "auto"
  { effort := effort
    summary := if summary = "none" then Option.none else some summary }

/-! ## chatmock/upstream.py — `normalize_model_name` (claim C7) -/

/-- The reasoning-effort suffixes stripped from model names
(upstream.py line 23), in the order Python iterates them. -/
def effortSuffixes : List String := ["minimal", "low", "medium", "high"]

/-- One pass of the suffix-stripping loop of `normalize_model_name`
(upstream.py lines 21-27) for a fixed separator: strip the first effort
suffix (case-insensitively) that the name ends with, if any. -/
def stripEffortSuffix (sep : String) (base : String) : String :=
  match effortSuffixes.find?
      (fun e => endsWithChars (sep ++ e).data (lowerChars base.data)) with
  | some e => (base.data.take (base.data.length - (sep ++ e).data.length)).asString
  | Option.none => base

/-- The alias map of `normalize_model_name` (upstream.py lines 28-38). -/
def modelAliasMap : List (String × String) :=
  [("gpt5", "gpt-5"), ("gpt-5-latest", "gpt-5"), ("gpt-5", "gpt-5"),
   ("gpt5-codex", "gpt-5-codex"), ("gpt-5-codex", "gpt-5-codex"),
   ("gpt-5-codex-latest", "gpt-5-codex"), ("codex", "codex-mini-latest"),
   ("codex-mini", "codex-mini-latest"), ("codex-mini-latest", "codex-mini-latest")]

/-- Embedding of `normalize_model_name(name, debug_model)`
(chatmock/upstream.py lines 15-39). -/
def normalize_model_name (name : Option String) (debugModel : Option String) : String :=
  let onName : String :=
    match name with
    | Option.none => "gpt-5"
    | some n =>
      if pyStrip n = "" then "gpt-5"
      else
        let base := pyStrip (takeUntilColon n.data).asString
        let base := stripEffortSuffix "-" base
        let base := stripEffortSuffix "_" base
        match modelAliasMap.find? (fun kv => kv.1 == base) with
        | some kv => kv.2
        | Option.none => base
  match debugModel with
  | some d => if pyStrip d ≠ "" then pyStrip d else onName
  | Option.none => onName

/-- Modelled from the spec: `extract_reasoning_from_model_name` is imported by
`routes_openai.py` and `routes_responses.py` from `chatmock.reasoning`, but its
definition is not present under src/.  Per spec §4.3 ("strip any trailing
colon-qualifier and any trailing reasoning-effort suffix
(`-minimal|-low|-medium|-high`) from the requested model name") and the §8
scenario ("client sends `model:"gpt-5-high"` → normalization resolves to
canonical model `gpt-5` with reasoning effort override `high`"), it returns an
`{effort}` override extracted from the trailing effort suffix of the requested
model name, or nothing when the name carries no such suffix. -/
def extract_reasoning_from_model_name (name : Option String) : Option ReasoningOverrides :=
  match name with
  | Option.none => Option.none
  | some n =>
    let base := pyStrip (takeUntilColon n.data).asString
    match effortSuffixes.find?
        (fun e => endsWithChars ("-" ++ e).data (lowerChars base.data)) with
    | some e => some { effort := some e, summary := Option.none }
    | Option.none => Option.none

/-! ## chatmock/utils.py — token refresh decision (claim C2) -/

/-- The 5-minute expiry safety margin, in seconds. -/
def FIVE_MINUTES : Int := 5 * 60

/-- The 55-minute staleness threshold, in seconds. -/
def FIFTY_FIVE_MINUTES : Int := 55 * 60

/-- Embedding of `_should_refresh_access_token(access_token, last_refresh)`
(chatmock/utils.py lines 269-288).  `expClaim` is the token's `exp` claim as
obtained by `parse_jwt_claims`, already reduced to a UTC timestamp in seconds:
it is `Option.none` whenever the claims are unreadable, `exp` is absent or
non-numeric, or `datetime.fromtimestamp` fails.  `lastRefresh` is
`_parse_iso8601(last_refresh)` as a UTC timestamp in seconds, `Option.none`
when `last_refresh` is absent or unparseable.  `now` is the current UTC time
in seconds. -/
def _should_refresh_access_token (accessToken : Option String)
    (expClaim : Option Int) (lastRefresh : Option Int) (now : Int) : Bool :=
  match accessToken with
  | Option.none => true
  | some t =>
    if t = "" then true
    else
      match expClaim with
      | some exp => decide (exp ≤ now + FIVE_MINUTES)
      | Option.none =>
        match lastRefresh with
        | some r => decide (r ≤ now - FIFTY_FIVE_MINUTES)
        | Option.none => false

/-- Embedding of the refresh gate of `load_chatgpt_tokens`
(chatmock/utils.py lines 234-236): a `refresh_token` network call is issued
iff `ensure_fresh` holds, a non-empty refresh token is persisted (and the
client id constant is configured, which it always is), and either
`_should_refresh_access_token` says so or the access token is missing/empty. -/
def load_chatgpt_tokens_refreshes (ensureFresh : Bool) (hasRefreshToken : Bool)
    (accessToken : Option String) (expClaim lastRefresh : Option Int) (now : Int) : Bool :=
  ensureFresh && hasRefreshToken &&
    (_should_refresh_access_token accessToken expClaim lastRefresh now ||
      !(match accessToken with | some t => decide (t ≠ "") | Option.none => false))

/-- The refresh condition as the amended claim states it: refresh iff the
access token is missing/empty, or its `exp` claim is readable and within
5 minutes of now, or the `exp` claim is unreadable and `last_refresh` is
readable and at least 55 minutes old. -/
def shouldRefreshAmendedSpec (accessToken : Option String)
    (expClaim lastRefresh : Option Int) (now : Int) : Bool :=
  (accessToken.getD "" = "") ||
  (match expClaim with
   | some exp => decide (exp ≤ now + FIVE_MINUTES)
   | Option.none => false) ||
  (expClaim.isNone &&
    match lastRefresh with
    | some r => decide (r ≤ now - FIFTY_FIVE_MINUTES)
    | Option.none => false)

/-! ## chatmock/utils.py — `parse_jwt_claims` (claim C10) -/

/-- Number of `.` characters in a token — Python `token.count(".")`. -/
def countDots (l : List Char) : Nat := (l.filter (fun c => c == '.')).length

/-- Python `token.split(".")`. -/
def splitOnDot : List Char → List (List Char)
  | [] => [[]]
  | c :: rest =>
    if c = '.' then [] :: splitOnDot rest
    else
      match splitOnDot rest with
      | [] => [[c]]
      | seg :: segs => (c :: seg) :: segs

/-- Python `payload + "=" * (-len(payload) % 4)`: pad with `=` to a multiple
of four characters. -/
def padBase64 (p : List Char) : List Char :=
  p ++ List.replicate ((4 - p.length % 4) % 4) '='

/-- Embedding of `parse_jwt_claims(token)` (chatmock/utils.py lines 67-76).
The stdlib stages are abstract total parameters: `b64decode` is
`base64.urlsafe_b64decode` (`Option.none` models `binascii.Error`),
`utf8decode` is `bytes.decode()` (`Option.none` models `UnicodeDecodeError`),
`jsonLoads` is `json.loads` (`Option.none` models `JSONDecodeError`).  The
repository's own logic — the emptiness and dot-count guard, the split, the
padding arithmetic, and the try/except that turns any failure into `None` —
is embedded concretely. -/
def parse_jwt_claims (b64decode : List Char → Option (List Nat))
    (utf8decode : List Nat → Option (List Char))
    (jsonLoads : List Char → Option PyVal) (token : List Char) : Option PyVal :=
  if token = [] ∨ countDots token ≠ 2 then Option.none
  else
    match splitOnDot token with
    | [_, payload, _] =>
      match b64decode (padBase64 payload) with
      | some bytes =>
        match utf8decode bytes with
        | some txt => jsonLoads txt
        | Option.none => Option.none
      | Option.none => Option.none
    | _ => Option.none

/-! ## oauth.py — the login callback handler (claim C1) -/

/-- The query parameters of `OAuthHTTPServer.auth_url` (oauth.py lines 60-72),
in order.  The `state` entry carries the server's state nonce. -/
def auth_url_params (clientId redirectUri codeChallenge stateNonce : String) :
    List (String × String) :=
  [("response_type", "code"), ("client_id", clientId), ("redirect_uri", redirectUri),
   ("scope", "openid profile email offline_access"), ("code_challenge", codeChallenge),
   ("code_challenge_method", "S256"), ("id_token_add_organizations", "true"),
   ("codex_cli_simplified_flow", "true"), ("state", stateNonce)]

/-- What a GET to the loopback listener resolves to. -/
inductive CallbackResult where
  | successPage      -- 200 page for /success
  | notFound         -- 404 for any other non-callback path
  | missingCode      -- 400 "Missing auth code"
  | exchangeFailed   -- 500 "Token exchange failed"
  | persistFailed    -- 500 "Unable to persist auth file"
  | completed        -- code exchanged, bundle persisted, exit_code set to 0
deriving DecidableEq, Repr

/-- A parsed callback request: the path and the `code`/`state` query
parameters (each absent when not supplied). -/
structure CallbackRequest where
  path : String
  code : Option String
  state : Option String
deriving DecidableEq, Repr

/-- Embedding of `OAuthHandler.do_GET` (oauth.py lines 78-125).
`serverStateNonce` is `self.server.state`, the nonce generated when the
server was created and embedded in the authorize URL.  `exchangeSucceeds`
models whether `_exchange_code` returns without raising (network POST plus
JSON decode); `persistSucceeds` models `write_auth_file`.  Note that the
handler reads only the `code` query parameter: neither `req.state` nor
`serverStateNonce` is consulted anywhere in its body. -/
def oauth_do_GET (serverStateNonce : String) (req : CallbackRequest)
    (exchangeSucceeds : Bool) (persistSucceeds : Bool) : CallbackResult :=
  if req.path = "/success" then .successPage
  else if req.path ≠ "/auth/callback" then .notFound
  else
    match req.code with
    | Option.none => .missingCode
    | some c =>
      if c = "" then .missingCode
      else if !exchangeSucceeds then .exchangeFailed
      else if persistSucceeds then .completed
      else .persistFailed

/-! ## chatmock/session.py — session fingerprinting (claims C4, C5) -/

/-- A normalized content part kept by `_canonicalize_first_user_message`. -/
inductive CanonPart where
  | inputText (text : String)
  | inputImage (url : String)
deriving DecidableEq, Repr

/-- The part-normalization loop of `_canonicalize_first_user_message`
(session.py lines 31-43): keep `input_text` parts with non-empty string
`text` and `input_image` parts with non-empty string `image_url`; drop
everything else. -/
def normContentParts : List PyVal → List CanonPart
  | [] => []
  | p :: rest =>
    match p with
    | .dict d =>
      match getKey d "type" with
      | some (.str "input_text") =>
        let text := match getKey d "text" with
          | some (.str t) => t
          | _ => ""
        if text ≠ "" then .inputText text :: normContentParts rest
        else normContentParts rest
      | some (.str "input_image") =>
        match getKey d "image_url" with
        | some (.str u) => if u ≠ "" then .inputImage u :: normContentParts rest
                           else normContentParts rest
        | _ => normContentParts rest
      | _ => normContentParts rest
    | _ => normContentParts rest

/-- Embedding of `_canonicalize_first_user_message(input_items)`
(session.py lines 16-46): the first item that is a dict with
`type == "message"`, `role == "user"`, a list-valued `content`, and a
non-empty normalized content list yields the canonical message (represented
by its normalized parts; `type` and `role` are the constants `"message"` /
`"user"`); otherwise the scan continues, and `Option.none` is returned when
no item qualifies. -/
def _canonicalize_first_user_message : List PyVal → Option (List CanonPart)
  | [] => Option.none
  | item :: rest =>
    match item with
    | .dict d =>
      match getKey d "type", getKey d "role", getKey d "content" with
      | some (.str "message"), some (.str "user"), some (.list parts) =>
        let norm := normContentParts parts
        if norm ≠ [] then some norm else _canonicalize_first_user_message rest
      | _, _, _ => _canonicalize_first_user_message rest
    | _ => _canonicalize_first_user_message rest

/-- The instructions component of the canonical prefix (session.py lines
50-52): the stripped instructions when they are a non-empty string. -/
def normInstructions : Option String → Option String
  | some s => if pyStrip s ≠ "" then some (pyStrip s) else Option.none
  | Option.none => Option.none

/-- A JSON string literal; `esc` abstracts `json.dumps` string escaping. -/
def jsonStrLit (esc : String → String) (s : String) : String := "\"" ++ esc s ++ "\""

/-- Comma-join, as `json.dumps` with separators `(",", ":")` renders lists. -/
def joinWithComma : List String → String
  | [] => ""
  | [x] => x
  | x :: y :: rest => x ++ "," ++ joinWithComma (y :: rest)

/-- Serialization of one normalized content part, keys sorted
(`json.dumps(part, sort_keys=True, separators=(",", ":"))`). -/
def serializeCanonPart (esc : String → String) : CanonPart → String
  | .inputText t => "\x7b\"text\":" ++ jsonStrLit esc t ++ ",\"type\":\"input_text\"\x7d"
  | .inputImage u => "\x7b\"image_url\":" ++ jsonStrLit esc u ++ ",\"type\":\"input_image\"\x7d"

/-- Serialization of the canonical first user message, keys sorted:
`content` < `role` < `type`. -/
def serializeCanonMsg (esc : String → String) (parts : List CanonPart) : String :=
  "\x7b\"content\":[" ++ joinWithComma (parts.map (serializeCanonPart esc)) ++
    "],\"role\":\"user\",\"type\":\"message\"\x7d"

/-- Embedding of `canonicalize_prefix(instructions, input_items)`
(session.py lines 49-56): build the prefix object and serialize it with
sorted keys (`first_user_message` < `instructions`) and no incidental
whitespace. -/
def canonicalizePrefixJson (esc : String → String) (instructions : Option String)
    (items : List PyVal) : String :=
  match _canonicalize_first_user_message items, normInstructions instructions with
  | Option.none, Option.none => "\x7b\x7d"
  | Option.none, some i => "\x7b\"instructions\":" ++ jsonStrLit esc i ++ "\x7d"
  | some m, Option.none => "\x7b\"first_user_message\":" ++ serializeCanonMsg esc m ++ "\x7d"
  | some m, some i =>
    "\x7b\"first_user_message\":" ++ serializeCanonMsg esc m ++
      ",\"instructions\":" ++ jsonStrLit esc i ++ "\x7d"

/-- `_MAX_ENTRIES` (session.py line 13). -/
def _MAX_ENTRIES : Nat := 10000

/-- The shared session state: `_FINGERPRINT_TO_UUID` together with `_ORDER`,
kept as one insertion-ordered association list (oldest first).  The Python
code maintains exactly this synchronization: a fingerprint is appended to
`_ORDER` iff it is inserted into the dict, and eviction removes the popped
oldest fingerprint from both. -/
structure SessionStore where
  entries : List (String × String)
deriving DecidableEq, Repr

/-- The fingerprints currently remembered, oldest first (`_ORDER`). -/
def storeKeys (s : SessionStore) : List String := s.entries.map Prod.fst

/-- `_FINGERPRINT_TO_UUID.get(fp)` / `in`-lookup. -/
def storeLookup (s : SessionStore) (fp : String) : Option String :=
  (s.entries.find? (fun kv => kv.1 == fp)).map (fun kv => kv.2)

/-- Embedding of `_remember(fp, sid)` (session.py lines 63-70): no-op when
the fingerprint is known; otherwise insert at the back and, if the capacity
is now exceeded, evict the oldest entry (`_ORDER.pop(0)`). -/
def _remember (s : SessionStore) (fp sid : String) : SessionStore :=
  if (storeKeys s).contains fp then s
  else
    let e := s.entries ++ [(fp, sid)]
    if _MAX_ENTRIES < e.length then { entries := e.drop 1 } else { entries := e }

/-- The fingerprint-lookup path of `ensure_session_id(instructions,
input_items, client_supplied)` (session.py lines 81-88), state-passing.
`fingerprint` abstracts `_fingerprint` (SHA-256 hex digest of the canonical
serialization); `esc` abstracts `json.dumps` string escaping; `freshSid` is
the UUID v4 that `uuid.uuid4()` would mint on a miss.  Returns the session
id and the updated store. -/
def ensure_session_id_core (fingerprint esc : String → String) (s : SessionStore)
    (instructions : Option String) (items : List PyVal) (freshSid : String) :
    String × SessionStore :=
  let fp := fingerprint (canonicalizePrefixJson esc instructions items)
  match storeLookup s fp with
  | some sid => (sid, s)
  | Option.none => (freshSid, _remember s fp freshSid)

/-- The client-supplied shortcut of `ensure_session_id` (session.py lines
78-79): a non-empty stripped client id is trusted and returned verbatim,
with the store untouched. -/
def ensure_session_id (fingerprint esc : String → String) (s : SessionStore)
    (instructions : Option String) (items : List PyVal)
    (clientSupplied : Option String) (freshSid : String) : String × SessionStore :=
  match clientSupplied with
  | some c =>
    if pyStrip c ≠ "" then (pyStrip c, s)
    else ensure_session_id_core fingerprint esc s instructions items freshSid
  | Option.none => ensure_session_id_core fingerprint esc s instructions items freshSid

/-- One abstract call to `ensure_session_id`. -/
structure SessionCall where
  instructions : Option String
  items : List PyVal
  clientSupplied : Option String
  freshSid : String

/-- Run a sequence of `ensure_session_id` calls, threading the store. -/
def runSessionCalls (fingerprint esc : String → String) (s : SessionStore) :
    List SessionCall → SessionStore
  | [] => s
  | c :: rest =>
    runSessionCalls fingerprint esc
      (ensure_session_id fingerprint esc s c.instructions c.items c.clientSupplied c.freshSid).2
      rest

/-! ## chatmock/upstream.py — `start_upstream_request` payload (claim C8) -/

/-- The `include` list computation of `start_upstream_request`
(upstream.py lines 69-77): string entries of a caller-provided
`extra_fields["include"]` list, plus `"reasoning.encrypted_content"` when a
reasoning param dict is present and the entry is not already there. -/
def includeListOf (extraFields : Option (List (String × PyVal)))
    (reasoningParam : Option (List (String × PyVal))) : List String :=
  let base : List String :=
    match extraFields with
    | some ef =>
      match getKey ef "include" with
      | some (.list l) => l.filterMap (fun v => match v with | .str t => some t | _ => Option.none)
      | _ => []
    | Option.none => []
  match reasoningParam with
  | some _ =>
    if base.contains "reasoning.encrypted_content" then base
    else base ++ ["reasoning.encrypted_content"]
  | Option.none => base

/-- The `extra_fields` merge loop of `start_upstream_request`
(upstream.py lines 107-116): copy every entry into the payload except the
client-controlled `stream` and `store` keys, which are skipped. -/
def mergeExtraFields (d : List (String × PyVal)) (ef : List (String × PyVal)) :
    List (String × PyVal) :=
  ef.foldl (fun acc kv => if kv.1 = "stream" ∨ kv.1 = "store" then acc else setKey acc kv.1 kv.2) d

/-- The entries of `extra_fields` that are not the skipped `stream`/`store`
keys (the part of `extra_fields` that can influence the payload). -/
def nonStreamStore (kv : String × PyVal) : Bool := !(kv.1 == "stream" || kv.1 == "store")

/-- The `responses_payload` dict of `start_upstream_request` before the
`extra_fields` merge (upstream.py lines 90-105): the base dict in insertion
order (with `store: False` and `stream: True` hard-coded), then the optional
`include` and `reasoning` keys.  `sessionId` is the result of
`ensure_session_id`, passed in. -/
def upstreamBasePayload (model : String) (inputItems : List PyVal)
    (instructions : Option String) (tools : Option (List PyVal)) (toolChoice : PyVal)
    (parallelToolCalls : Bool) (reasoningParam : Option (List (String × PyVal)))
    (extraFields : Option (List (String × PyVal))) (sessionId : String) :
    List (String × PyVal) :=
  let includes := includeListOf extraFields reasoningParam
  let payload : List (String × PyVal) :=
    [("model", .str model),
     ("instructions", match instructions with | some t => .str t | Option.none => .none),
     ("input", .list inputItems),
     ("tools", .list (tools.getD [])),
     ("tool_choice",
       match toolChoice with
       | .str t => if t = "auto" ∨ t = "none" then .str t else .str "auto"
       | .dict d => .dict d
       | _ => .str "auto"),
     ("parallel_tool_calls", .bool parallelToolCalls),
     ("store", .bool false),
     ("stream", .bool true),
     ("prompt_cache_key", .str sessionId)]
  let payload := if includes ≠ [] then payload ++ [("include", .list (includes.map PyVal.str))]
                 else payload
  match reasoningParam with
  | some r => payload ++ [("reasoning", .dict r)]
  | Option.none => payload

/-- The full payload: the base dict, then the `extra_fields` merge loop. -/
def start_upstream_request_payload (model : String) (inputItems : List PyVal)
    (instructions : Option String) (tools : Option (List PyVal)) (toolChoice : PyVal)
    (parallelToolCalls : Bool) (reasoningParam : Option (List (String × PyVal)))
    (extraFields : Option (List (String × PyVal))) (sessionId : String) :
    List (String × PyVal) :=
  let payload := upstreamBasePayload model inputItems instructions tools toolChoice
    parallelToolCalls reasoningParam extraFields sessionId
  match extraFields with
  | some ef => mergeExtraFields payload ef
  | Option.none => payload

/-! ## chatmock/routes_openai.py — passthrough-tool retry (claim C9) -/

/-- The error body assembled from the first upstream error response
(routes_openai.py lines 170-195), reduced to the fields the claim is about:
the message and the optional backend error code. -/
structure UpstreamErrorBody where
  message : String
  code : Option String
deriving DecidableEq, Repr

/-- Outcome of one `start_upstream_request` call as `chat_completions`
observes it: either the call itself failed (`error_resp is not None`:
missing credentials or transport failure) or it produced a response with a
status code. -/
inductive UpstreamResult where
  | startError
  | ok (status : Nat)
deriving DecidableEq, Repr

/-- What `chat_completions` does with the upstream exchange. -/
inductive ChatFlowOutcome where
  | streamed (retried : Bool)
  | errorResponse (message : String) (code : Option String) (status : Nat)
  | startFailure
deriving DecidableEq, Repr

/-- Embedding of the upstream-interaction control flow of `chat_completions`
(routes_openai.py lines 155-230).  `baseTools` are the converted client
`tools`; `extraTools` the validated passthrough (`responses_tools`) tool
set, so `had_responses_tools` is exactly `extraTools ≠ []`.  The first
request carries `baseTools ++ extraTools`; on an upstream error status with
passthrough tools present, exactly one retry is issued with `baseTools`
only, and if it also fails the original error body is returned with
`payload_error.setdefault("code", "RESPONSES_TOOLS_REJECTED")` — keeping the
backend's own code when one was present — at the retry's status (or the
original status when the retry never produced a response).  The function
returns the list of upstream requests issued (each as its tool list) and
the outcome. -/
def chat_completions_upstream_flow (baseTools extraTools : List PyVal)
    (r1 r2 : UpstreamResult) (origBody : UpstreamErrorBody) :
    List (List PyVal) × ChatFlowOutcome :=
  let req1 := baseTools ++ extraTools
  match r1 with
  | .startError => ([req1], .startFailure)
  | .ok s1 =>
    if s1 < 400 then ([req1], .streamed false)
    else if extraTools.isEmpty then ([req1], .errorResponse origBody.message origBody.code s1)
    else
      match r2 with
      | .startError =>
        ([req1, baseTools],
         .errorResponse origBody.message (some (origBody.code.getD "RESPONSES_TOOLS_REJECTED")) s1)
      | .ok s2 =>
        if s2 < 400 then ([req1, baseTools], .streamed true)
        else
          ([req1, baseTools],
           .errorResponse origBody.message (some (origBody.code.getD "RESPONSES_TOOLS_REJECTED")) s2)

/-! ## chatmock/utils.py — `sse_translate_chat` (claim C3) -/

/-- The per-stream mutable flags of `sse_translate_chat`
(utils.py lines 389-393). -/
structure ChatStreamState where
  thinkOpen : Bool
  thinkClosed : Bool
  sawAnySummary : Bool
  pendingSummaryParagraph : Bool
deriving DecidableEq, Repr

/-- The backend SSE events as `sse_translate_chat` classifies them (one
constructor per branch of the dispatch in utils.py lines 446-751).
`webSearchCall` covers every event whose kind contains `"web_search_call"`
(`finished` marks kinds ending in `.completed`/`.done`; `args` stands for
the serialized accumulated arguments).  `outputItemDoneCall` is
`response.output_item.done` with a `function_call`/`web_search_call` item
whose id, name and serialized arguments are strings.  `outputTextDone` is
`response.output_text.done` (note: it is swallowed by the earlier
catch-all `kind.endswith(".done")` branch, so it emits nothing), which also
covers every other kind ending in `.done`.  `doneSentinel` is a literal
upstream `data: [DONE]` line.  `completed` records whether the event
carried a usable `response.usage`.  `unknown` is any other event kind. -/
inductive ChatSseEvent where
  | outputTextDelta (delta : String)
  | reasoningSummaryTextDelta (delta : String)
  | reasoningTextDelta (delta : String)
  | reasoningSummaryPartAdded
  | outputItemDoneCall (callId name args : String)
  | outputItemDoneOther
  | outputTextDone
  | webSearchCall (callId args : String) (finished : Bool)
  | failed (msg : String)
  | completed (hasUsage : Bool)
  | doneSentinel
  | unknown
deriving DecidableEq, Repr

/-- The client-facing chunks `sse_translate_chat` yields, abstracted from
their JSON rendering.  `thinkOpenMarker`/`thinkCloseMarker` are the
bracketed-mode content chunks carrying `"<think>"`/`"</think>"` emitted by
the bracket state machine; `doneMarker` is the terminal `data: [DONE]`
sentinel. -/
inductive ChatChunk where
  | thinkOpenMarker
  | thinkCloseMarker
  | contentDelta (s : String)
  | reasoningDelta (s : String)
  | reasoningFlatDelta (isSummaryKind : Bool) (s : String)
  | toolCallDelta (callId name args : String)
  | finishToolCalls
  | errorMessage (msg : String)
  | usageChunk
  | doneMarker
deriving DecidableEq, Repr

/-- The shared handler of `response.reasoning_summary_text.delta` and
`response.reasoning_text.delta` (utils.py lines 617-706), by compatibility
mode: `o3` emits structured reasoning chunks (with a paragraph separator
when pending), `think-tags` opens the bracket if still unopened and emits
the text as content inside it, any other mode emits flat reasoning
fields. -/
def reasoningDeltaStep (compat : String) (st : ChatStreamState)
    (isSummaryKind : Bool) (d : String) : List ChatChunk × ChatStreamState :=
  if compat = "o3" then
    if isSummaryKind ∧ st.pendingSummaryParagraph then
      ([.reasoningDelta "\n", .reasoningDelta d], { st with pendingSummaryParagraph := false })
    else ([.reasoningDelta d], st)
  else if compat = "think-tags" then
    if !st.thinkOpen ∧ !st.thinkClosed then
      let st := { st with thinkOpen := true }
      if isSummaryKind ∧ st.pendingSummaryParagraph then
        ([.thinkOpenMarker, .contentDelta "\n", .contentDelta d],
         { st with pendingSummaryParagraph := false })
      else ([.thinkOpenMarker, .contentDelta d], st)
    else if st.thinkOpen ∧ !st.thinkClosed then
      if isSummaryKind ∧ st.pendingSummaryParagraph then
        ([.contentDelta "\n", .contentDelta d], { st with pendingSummaryParagraph := false })
      else ([.contentDelta d], st)
    else ([], st)
  else ([.reasoningFlatDelta isSummaryKind d], st)

/-- One iteration of the event loop of `sse_translate_chat`
(utils.py lines 435-751): the chunks yielded for the event, the updated
per-stream state, and whether the loop breaks. -/
def sse_translate_chat_step (compat : String) (includeUsage : Bool)
    (st : ChatStreamState) (e : ChatSseEvent) :
    List ChatChunk × ChatStreamState × Bool :=
  match e with
  | .doneSentinel => ([], st, true)
  | .outputTextDelta d =>
    if compat = "think-tags" ∧ st.thinkOpen ∧ !st.thinkClosed then
      ([.thinkCloseMarker, .contentDelta d],
       { st with thinkOpen := false, thinkClosed := true }, false)
    else ([.contentDelta d], st, false)
  | .reasoningSummaryPartAdded =>
    if compat = "think-tags" ∨ compat = "o3" then
      if st.sawAnySummary then ([], { st with pendingSummaryParagraph := true }, false)
      else ([], { st with sawAnySummary := true }, false)
    else ([], st, false)
  | .reasoningSummaryTextDelta d =>
    ((reasoningDeltaStep compat st true d).1, (reasoningDeltaStep compat st true d).2, false)
  | .reasoningTextDelta d =>
    ((reasoningDeltaStep compat st false d).1, (reasoningDeltaStep compat st false d).2, false)
  | .outputItemDoneCall cid name args =>
    ([.toolCallDelta cid name args, .finishToolCalls], st, false)
  | .outputItemDoneOther => ([], st, false)
  | .outputTextDone => ([], st, false)
  | .webSearchCall cid args fin =>
    ([.toolCallDelta cid "web_search" args] ++ (if fin then [.finishToolCalls] else []), st, false)
  | .failed m => ([.errorMessage m], st, false)
  | .completed hasUsage =>
    if compat = "think-tags" ∧ st.thinkOpen ∧ !st.thinkClosed then
      ([ChatChunk.thinkCloseMarker] ++ (if includeUsage ∧ hasUsage then [ChatChunk.usageChunk] else []) ++
        [ChatChunk.doneMarker],
       { st with thinkOpen := false, thinkClosed := true }, true)
    else
      ((if includeUsage ∧ hasUsage then [ChatChunk.usageChunk] else []) ++ [ChatChunk.doneMarker],
       st, true)
  | .unknown => ([], st, false)

/-- Embedding of the full event loop of `sse_translate_chat`
(utils.py lines 377-753), from a given per-stream state over a parsed
event sequence: concatenates the yielded chunks, stopping at the first
terminal event (`[DONE]` from upstream, or `response.completed`). -/
def sse_translate_chat (compat : String) (includeUsage : Bool) :
    ChatStreamState → List ChatSseEvent → List ChatChunk
  | _, [] => []
  | st, e :: rest =>
    let r := sse_translate_chat_step compat includeUsage st e
    if r.2.2 then r.1
    else r.1 ++ sse_translate_chat compat includeUsage r.2.1 rest

/-- The initial per-stream state (all flags false, utils.py lines 389-393). -/
def chatInitState : ChatStreamState :=
  { thinkOpen := false, thinkClosed := false
    sawAnySummary := false, pendingSummaryParagraph := false }

/-- The chunks the bracketed-mode invariant is about: the two think markers
and the terminal sentinel. -/
def isBracketKeyChunk : ChatChunk → Bool
  | .thinkOpenMarker => true
  | .thinkCloseMarker => true
  | .doneMarker => true
  | _ => false

/-- The marker/sentinel subsequences that a run of the translator can emit,
as a function of the bracket flags it starts from: once closed, no marker
ever again (only possibly the terminal sentinel); while open, at most one
close, possibly followed by the sentinel; from the initial state, at most
one open followed by at most one close, with the sentinel last. -/
def AllowedMarkers (ms : List ChatChunk) : Bool → Bool → Prop
  | _, true => ms = [] ∨ ms = [.doneMarker]
  | true, false =>
    ms = [] ∨ ms = [.thinkCloseMarker] ∨ ms = [.thinkCloseMarker, .doneMarker]
  | false, false =>
    ms = [] ∨ ms = [.doneMarker] ∨ ms = [.thinkOpenMarker] ∨
      ms = [.thinkOpenMarker, .thinkCloseMarker] ∨
      ms = [.thinkOpenMarker, .thinkCloseMarker, .doneMarker]

/-- Concrete input items for the claim C5 witness: a single user message
with one non-empty `input_text` part. -/
def c5Items : List PyVal :=
  [PyVal.dict [("type", PyVal.str "message"), ("role", PyVal.str "user"),
    ("content", PyVal.list [PyVal.dict [("type", PyVal.str "input_text"),
      ("text", PyVal.str "hi")]])]]

/-- The claim C5 witness's second input list: same first user message, with
an unrelated trailing item. -/
def c5Items2 : List PyVal := c5Items ++ [PyVal.int 7]

/-! ## Theorems: claims C6, C7, C2, C10 -/

/-- Claim C6, counterexample: the per-request effort override `"minimal"` is
NOT accepted by `build_reasoning_param` — it is ignored in favor of the server
default (`"medium"` here), contradicting the claim that every override in
{minimal, low, medium, high} is returned as the effective effort. -/
theorem c6_minimal_override_ignored :
    build_reasoning_param "medium" "auto"
        (some { effort := some "minimal", summary := Option.none }) =
      { effort := "medium", summary := some "auto" } ∧
    ("medium" : String) ≠ "minimal" := by
  constructor
  · rfl
  · decide

/-- Claim C6 (amended): `build_reasoning_param` accepts exactly the effort
overrides in {low, medium, high, none} and the summary overrides in
{auto, concise, detailed, none}; any other override is ignored in favor of
the configured server default (itself falling back to `"medium"`/`"auto"`
when invalid), and the `summary` key is omitted when the effective summary
is `"none"`. -/
theorem c6_build_reasoning_param_effective (be bs : String) (o : ReasoningOverrides) :
    (build_reasoning_param be bs (some o)).effort =
      (if pyNorm (o.effort.getD "") ∈ validEfforts then pyNorm (o.effort.getD "")
       else if pyNorm be ∈ validEfforts then pyNorm be else "medium") ∧
    (build_reasoning_param be bs (some o)).summary =
      (let s := if pyNorm (o.summary.getD "") ∈ validSummaries then pyNorm (o.summary.getD "")
                else if pyNorm bs ∈ validSummaries then pyNorm bs else "auto"
       if s = "none" then Option.none else some s) := by
  unfold build_reasoning_param
  have hne : ("" : String) ∉ validEfforts := by decide
  have hns : ("" : String) ∉ validSummaries := by decide
  have heff : pyNorm (o.effort.getD "") ∈ validEfforts → pyNorm (o.effort.getD "") ≠ "" :=
    fun h h0 => hne (h0 ▸ h)
  have hsum : pyNorm (o.summary.getD "") ∈ validSummaries → pyNorm (o.summary.getD "") ≠ "" :=
    fun h h0 => hns (h0 ▸ h)
  by_cases h1 : pyNorm (o.effort.getD "") ∈ validEfforts <;>
    by_cases h2 : pyNorm (o.summary.getD "") ∈ validSummaries <;>
      simp [h1, h2, heff, hsum]

/-- Claim C7: the requested model string "gpt-5-high" normalizes to the
canonical backend model "gpt-5", and the reasoning override extracted from
the model name is effort "high", which `build_reasoning_param` then returns
as the effective effort. -/
theorem c7_gpt5_high_normalization :
    normalize_model_name (some "gpt-5-high") Option.none = "gpt-5" ∧
    extract_reasoning_from_model_name (some "gpt-5-high") =
      some { effort := some "high", summary := Option.none } ∧
    (build_reasoning_param "medium" "auto"
        (extract_reasoning_from_model_name (some "gpt-5-high"))).effort = "high" := by
  refine ⟨by decide, by decide, by decide⟩

/-- Claim C2, counterexample: with the access token's `exp` readable and 10
minutes in the future (`exp = 600`, `now = 0`) but `last_refresh` two hours
old (`-7200 ≤ now - 55min`), the loader performs NO refresh call — the
`last_refresh` staleness check is unreachable when `exp` is readable,
contradicting the claim that a stale `last_refresh` alone forces a refresh. -/
theorem c2_stale_last_refresh_not_refreshed :
    _should_refresh_access_token (some "tok") (some 600) (some (-7200)) 0 = false ∧
    load_chatgpt_tokens_refreshes true true (some "tok") (some 600) (some (-7200)) 0 = false ∧
    ((-7200 : Int) ≤ 0 - FIFTY_FIVE_MINUTES) ∧ ¬ ((600 : Int) ≤ 0 + FIVE_MINUTES) := by
  refine ⟨by decide, by decide, by decide, by decide⟩

/-- Claim C2 (amended): the loader refreshes iff the access token is
missing/empty, or its `exp` claim is readable and within 5 minutes of now,
or `exp` is unreadable and `last_refresh` is readable and at least 55 minutes
old; in particular when `exp` is readable and more than 5 minutes in the
future no refresh happens, regardless of `last_refresh`. -/
theorem c2_refresh_decision (a : Option String) (e l : Option Int) (now : Int) :
    (_should_refresh_access_token a e l now = shouldRefreshAmendedSpec a e l now) ∧
    (∀ ef hrt exp, e = some exp → now + FIVE_MINUTES < exp →
      load_chatgpt_tokens_refreshes ef hrt a e l now = (ef && hrt && decide (a.getD "" = ""))) := by
  constructor
  · cases a with
    | none => simp [_should_refresh_access_token, shouldRefreshAmendedSpec]
    | some t =>
      by_cases ht : t = ""
      · subst ht
        simp [_should_refresh_access_token, shouldRefreshAmendedSpec]
      · cases e with
        | none =>
          cases l <;> simp [_should_refresh_access_token, shouldRefreshAmendedSpec, ht]
        | some exp =>
          simp [_should_refresh_access_token, shouldRefreshAmendedSpec, ht]
  · intro ef hrt exp he hlt
    subst he
    have hexp : ¬ (exp ≤ now + FIVE_MINUTES) := by omega
    cases a with
    | none =>
      simp [load_chatgpt_tokens_refreshes, _should_refresh_access_token]
    | some t =>
      by_cases ht : t = ""
      · subst ht
        simp [load_chatgpt_tokens_refreshes, _should_refresh_access_token]
      · simp [load_chatgpt_tokens_refreshes, _should_refresh_access_token, ht, hexp]

/-- Splitting never yields an empty list of segments. -/
theorem splitOnDot_ne_nil (l : List Char) : splitOnDot l ≠ [] := by
  induction l with
  | nil => simp [splitOnDot]
  | cons c rest ih =>
    by_cases hc : c = '.'
    · simp [splitOnDot, hc]
    · simp only [splitOnDot, if_neg hc]
      cases hs : splitOnDot rest with
      | nil => simp
      | cons seg segs => simp

/-- The number of segments is one more than the number of dots. -/
theorem splitOnDot_length (l : List Char) : (splitOnDot l).length = countDots l + 1 := by
  induction l with
  | nil => simp [splitOnDot, countDots]
  | cons c rest ih =>
    by_cases hc : c = '.'
    · simp [splitOnDot, countDots, hc, List.length_cons] at ih ⊢
      omega
    · simp only [splitOnDot, if_neg hc]
      cases hs : splitOnDot rest with
      | nil => exact absurd hs (splitOnDot_ne_nil rest)
      | cons seg segs =>
        rw [hs] at ih
        simp [countDots, List.filter_cons, hc] at ih ⊢
        simpa using ih

/-- Witness for `c2_refresh_decision`: with a non-empty token whose `exp` is
1000 s in the future (beyond the 5-minute margin) at `now = 0`, the loader
performs no refresh call. -/
theorem c2_refresh_decision_witness :
    (some (1000 : Int) = some 1000) ∧ ((0 : Int) + FIVE_MINUTES < 1000) ∧
    load_chatgpt_tokens_refreshes true true (some "tok") (some 1000) Option.none 0 =
      (true && true && decide (((some "tok").getD "" : String) = "")) :=
  ⟨rfl, by decide,
    (c2_refresh_decision (some "tok") (some 1000) Option.none 0).2 true true 1000 rfl (by decide)⟩

/-- Claim C10: `parse_jwt_claims` is total and option-valued: it returns
`Option.none` whenever the token does not contain exactly two dots, and in
general it returns a value only when every stage of the decode pipeline
(base64url decode of the padded payload segment, UTF-8 decode, JSON parse)
succeeds; otherwise it returns `Option.none` instead of propagating a
failure. -/
theorem c10_parse_jwt_claims_total (f : List Char → Option (List Nat))
    (g : List Nat → Option (List Char)) (h : List Char → Option PyVal)
    (token : List Char) :
    (countDots token ≠ 2 → parse_jwt_claims f g h token = Option.none) ∧
    (parse_jwt_claims f g h token = Option.none ∨
      ∃ payload bytes txt claims,
        countDots token = 2 ∧
        (splitOnDot token).get? 1 = some payload ∧
        f (padBase64 payload) = some bytes ∧
        g bytes = some txt ∧ h txt = some claims ∧
        parse_jwt_claims f g h token = some claims) := by
  constructor
  · intro hne
    simp only [parse_jwt_claims]
    rw [if_pos (Or.inr hne)]
  · by_cases h0 : token = [] ∨ countDots token ≠ 2
    · left
      simp only [parse_jwt_claims]
      rw [if_pos h0]
    · push_neg at h0
      obtain ⟨hne, hdots⟩ := h0
      have hlen : (splitOnDot token).length = 3 := by
        rw [splitOnDot_length, hdots]
      match hsplit : splitOnDot token with
      | [] => rw [hsplit] at hlen; simp at hlen
      | [a] => rw [hsplit] at hlen; simp at hlen
      | [a, b] => rw [hsplit] at hlen; simp at hlen
      | a :: b :: c :: d :: tl => rw [hsplit] at hlen; simp at hlen
      | [a, b, c] =>
        have hrun : parse_jwt_claims f g h token =
            (match f (padBase64 b) with
             | some bytes =>
               (match g bytes with
                | some txt => h txt
                | Option.none => Option.none)
             | Option.none => Option.none) := by
          simp only [parse_jwt_claims]
          rw [if_neg (by simp [hne, hdots]), hsplit]
        cases hf : f (padBase64 b) with
        | none => left; rw [hrun, hf]
        | some bytes =>
          cases hg : g bytes with
          | none => left; rw [hrun, hf]; simp [hg]
          | some txt =>
            cases hh : h txt with
            | none => left; rw [hrun, hf]; simp [hg, hh]
            | some claims =>
              right
              exact ⟨b, bytes, txt, claims, hdots, by simp [hsplit], hf, hg, hh,
                by rw [hrun, hf]; simp [hg, hh]⟩

/-- Witness for `c10_parse_jwt_claims_total`: a token with a single dot is
rejected with `Option.none`. -/
theorem c10_parse_jwt_claims_total_witness :
    countDots ['a', '.', 'b'] ≠ 2 ∧
    parse_jwt_claims (fun _ => Option.none) (fun _ => Option.none) (fun _ => Option.none)
      ['a', '.', 'b'] = Option.none :=
  ⟨by decide, (c10_parse_jwt_claims_total _ _ _ _).1 (by decide)⟩

/-- Claim C1 evaluated at the failing input: a callback whose `state`
parameter (`"wrong"`) differs from the server's nonce (`"nonce123"`)
nevertheless completes the login — the code exchange runs and the bundle is
persisted — because `do_GET` never compares the `state` parameter against
the nonce; indeed the result is invariant under every choice of `state`
parameter and nonce.  The nonce IS embedded in the authorize URL, so the
claim's premise about `auth_url` holds, yet the mismatch check it requires
does not exist. -/
theorem c1_state_mismatch_still_completes :
    oauth_do_GET "nonce123"
        { path := "/auth/callback", code := some "abc", state := some "wrong" } true true =
      .completed ∧
    (some "wrong" : Option String) ≠ some "nonce123" ∧
    (∀ nonce nonce' st st' code ex w,
      oauth_do_GET nonce { path := "/auth/callback", code := code, state := st } ex w =
        oauth_do_GET nonce' { path := "/auth/callback", code := code, state := st' } ex w) ∧
    (auth_url_params "cid" "http://localhost:1455/auth/callback" "chal" "nonce123").find?
        (fun kv => kv.1 == "state") = some ("state", "nonce123") := by
  refine ⟨by decide, by decide, ?_, by decide⟩
  intro nonce nonce' st st' code ex w
  cases code <;> rfl

/-- `_remember` never grows the store beyond capacity. -/
theorem remember_length_le (s : SessionStore) (fp sid : String)
    (h : s.entries.length ≤ _MAX_ENTRIES) :
    (_remember s fp sid).entries.length ≤ _MAX_ENTRIES := by
  unfold _remember
  split
  · exact h
  · dsimp only
    split
    · simp
      omega
    · next hlen =>
      simp at hlen
      simpa using hlen

/-- `ensure_session_id` never grows the store beyond capacity. -/
theorem ensure_session_id_length_le (fingerprint esc : String → String)
    (s : SessionStore) (ins : Option String) (items : List PyVal)
    (client : Option String) (fresh : String) (h : s.entries.length ≤ _MAX_ENTRIES) :
    (ensure_session_id fingerprint esc s ins items client fresh).2.entries.length ≤ _MAX_ENTRIES := by
  have hcore : (ensure_session_id_core fingerprint esc s ins items fresh).2.entries.length ≤
      _MAX_ENTRIES := by
    unfold ensure_session_id_core
    dsimp only
    split
    · exact h
    · exact remember_length_le _ _ _ h
  unfold ensure_session_id
  cases client with
  | none => exact hcore
  | some c =>
    by_cases hc : pyStrip c ≠ ""
    · simp only [if_pos hc]
      exact h
    · simp only [if_neg hc]
      exact hcore

/-- Claim C4: after any sequence of `ensure_session_id` calls starting from
the empty store, the session-fingerprint map holds at most 10,000 entries;
and inserting a fresh fingerprint into a store at capacity evicts exactly
the oldest surviving entry (the head of the insertion order) and no other —
the new entry list is the old one minus its head, plus the new entry at the
back. -/
theorem c4_session_store_bounded :
    (∀ (fingerprint esc : String → String) (calls : List SessionCall),
      (runSessionCalls fingerprint esc { entries := [] } calls).entries.length ≤ _MAX_ENTRIES) ∧
    (∀ (s : SessionStore) (fp sid : String), s.entries.length = _MAX_ENTRIES →
      (storeKeys s).contains fp = false →
      (_remember s fp sid).entries = s.entries.drop 1 ++ [(fp, sid)]) := by
  constructor
  · intro fingerprint esc calls
    have run : ∀ (calls : List SessionCall) (s : SessionStore),
        s.entries.length ≤ _MAX_ENTRIES →
        (runSessionCalls fingerprint esc s calls).entries.length ≤ _MAX_ENTRIES := by
      intro calls
      induction calls with
      | nil => intro s h; exact h
      | cons c rest ih =>
        intro s h
        exact ih _ (ensure_session_id_length_le fingerprint esc s c.instructions c.items
          c.clientSupplied c.freshSid h)
    exact run calls { entries := [] } (by simp)
  · intro s fp sid hlen hfp
    unfold _remember
    rw [if_neg (by simpa using hfp)]
    dsimp only
    rw [if_pos (by simp [hlen, _MAX_ENTRIES])]
    have hpos : 1 ≤ s.entries.length := by
      rw [hlen]; decide
    simp [List.drop_append_of_le_length hpos]

/-- Witness for `c4_session_store_bounded`: a store of 10,000 entries keyed
`"a"` receives the fresh fingerprint `"b"`; the oldest entry is evicted and
the new one appended. -/
theorem c4_session_store_bounded_witness :
    (SessionStore.mk (List.replicate _MAX_ENTRIES ("a", "s"))).entries.length = _MAX_ENTRIES ∧
    (storeKeys (SessionStore.mk (List.replicate _MAX_ENTRIES ("a", "s")))).contains "b" = false ∧
    (_remember (SessionStore.mk (List.replicate _MAX_ENTRIES ("a", "s"))) "b" "x").entries =
      (List.replicate _MAX_ENTRIES ("a", "s")).drop 1 ++ [("b", "x")] :=
  ⟨by simp, by simp [storeKeys, List.mem_replicate],
    c4_session_store_bounded.2 _ "b" "x" (by simp)
      (by simp [storeKeys, List.mem_replicate])⟩

/-- Unfolding `getKey` over a cons cell. -/
theorem getKey_cons (kv : String × PyVal) (d : List (String × PyVal)) (k : String) :
    getKey (kv :: d) k = if kv.1 == k then some kv.2 else getKey d k := by
  unfold getKey
  cases h : (kv.1 == k) <;> simp [List.find?_cons, h]

/-- If no entry of `l` matches the fingerprint, the appended entry is found. -/
theorem find?_no_match_append (l : List (String × String)) (fp v : String)
    (h : ∀ kv ∈ l, (kv.1 == fp) = false) :
    (l ++ [(fp, v)]).find? (fun kv => kv.1 == fp) = some (fp, v) := by
  induction l with
  | nil => simp [List.find?]
  | cons kv rest ih =>
    have h1 : (kv.1 == fp) = false := h kv (by simp)
    simp only [List.cons_append, List.find?_cons, h1]
    exact ih (fun kv hm => h kv (by simp [hm]))

/-- After remembering a fingerprint that was not present, it is found and
maps to the inserted session id (even when the insertion evicted the
oldest entry). -/
theorem storeLookup_remember_self (s : SessionStore) (fp sid : String)
    (h : storeLookup s fp = Option.none) :
    storeLookup (_remember s fp sid) fp = some sid := by
  have hfind : s.entries.find? (fun kv => kv.1 == fp) = Option.none := by
    unfold storeLookup at h
    exact Option.map_eq_none'.mp h
  have hall : ∀ kv ∈ s.entries, (kv.1 == fp) = false := by
    intro kv hm
    simpa using List.find?_eq_none.mp hfind kv hm
  have hmem : fp ∉ storeKeys s := by
    intro hmem
    obtain ⟨kv, hkv, hfst⟩ := List.mem_map.mp hmem
    have := hall kv hkv
    rw [hfst] at this
    simp at this
  unfold _remember
  rw [if_neg (by simpa using hmem)]
  dsimp only
  by_cases hlen : _MAX_ENTRIES < (s.entries ++ [(fp, sid)]).length
  · rw [if_pos hlen]
    unfold storeLookup
    dsimp only
    have h1 : 1 ≤ s.entries.length := by
      by_contra hl
      push_neg at hl
      have h0 : s.entries.length = 0 := by omega
      simp [List.length_append, h0, _MAX_ENTRIES] at hlen
    rw [List.drop_append_of_le_length h1]
    rw [find?_no_match_append _ _ _ (fun kv hm => hall kv (List.mem_of_mem_drop hm))]
    rfl
  · rw [if_neg hlen]
    unfold storeLookup
    dsimp only
    rw [find?_no_match_append _ _ _ hall]
    rfl

/-- A repeated `ensure_session_id_core` call with an identical canonical
prefix returns the session id minted (or found) by the first call, and
leaves the store as the first call left it. -/
theorem ensure_session_id_core_repeat (fingerprint esc : String → String)
    (s : SessionStore) (ins ins2 : Option String) (items items2 : List PyVal)
    (fresh fresh2 : String)
    (hins : normInstructions ins = normInstructions ins2)
    (hitems : _canonicalize_first_user_message items = _canonicalize_first_user_message items2) :
    ensure_session_id_core fingerprint esc
        (ensure_session_id_core fingerprint esc s ins items fresh).2 ins2 items2 fresh2 =
      ((ensure_session_id_core fingerprint esc s ins items fresh).1,
       (ensure_session_id_core fingerprint esc s ins items fresh).2) := by
  have hcanon : canonicalizePrefixJson esc ins2 items2 = canonicalizePrefixJson esc ins items := by
    unfold canonicalizePrefixJson
    rw [hins, hitems]
  simp only [ensure_session_id_core]
  rw [hcanon]
  cases hl : storeLookup s (fingerprint (canonicalizePrefixJson esc ins items)) with
  | some sid => simp [hl]
  | none => simp [hl, storeLookup_remember_self _ _ _ hl]

/-- Claim C5: the canonical prefix serialization depends only on the
normalized instructions and the normalized first user message
(so unrelated differences in the remaining input items are irrelevant);
dict lookups are insensitive to key order (for duplicate-free keys, any
permutation of a dict's entries yields the same lookups, hence the same
canonical serialization); and a repeated `ensure_session_id` call (with no
client-supplied id) whose instructions and first user message normalize
identically returns the same session id while leaving the store
unchanged. -/
theorem c5_canonical_prefix_determines_session :
    (∀ (esc : String → String) (ins1 : Option String) (items1 : List PyVal)
        (ins2 : Option String) (items2 : List PyVal),
      normInstructions ins1 = normInstructions ins2 →
      _canonicalize_first_user_message items1 = _canonicalize_first_user_message items2 →
      canonicalizePrefixJson esc ins1 items1 = canonicalizePrefixJson esc ins2 items2) ∧
    (∀ (d1 d2 : List (String × PyVal)), d1.Perm d2 → (d1.map Prod.fst).Nodup →
      ∀ k, getKey d1 k = getKey d2 k) ∧
    (∀ (fingerprint esc : String → String) (s : SessionStore) (ins ins2 : Option String)
        (items items2 : List PyVal) (fresh fresh2 : String),
      normInstructions ins = normInstructions ins2 →
      _canonicalize_first_user_message items = _canonicalize_first_user_message items2 →
      ensure_session_id fingerprint esc
          (ensure_session_id fingerprint esc s ins items Option.none fresh).2
          ins2 items2 Option.none fresh2 =
        ((ensure_session_id fingerprint esc s ins items Option.none fresh).1,
         (ensure_session_id fingerprint esc s ins items Option.none fresh).2)) := by
  refine ⟨?_, ?_, ?_⟩
  · intro esc ins1 items1 ins2 items2 h1 h2
    unfold canonicalizePrefixJson
    rw [h1, h2]
  · intro d1 d2 hperm
    induction hperm with
    | nil => intro _ k; rfl
    | cons x hp ih =>
      intro hnodup k
      rw [getKey_cons, getKey_cons]
      by_cases hx : (x.1 == k) = true
      · rw [if_pos hx, if_pos hx]
      · rw [if_neg hx, if_neg hx]
        refine ih ?_ k
        simp only [List.map_cons, List.nodup_cons] at hnodup
        exact hnodup.2
    | swap x y l =>
      intro hnodup k
      rw [getKey_cons, getKey_cons, getKey_cons, getKey_cons]
      simp only [List.map_cons, List.nodup_cons, List.mem_cons] at hnodup
      by_cases h1 : (y.1 == k) = true <;> by_cases h2 : (x.1 == k) = true <;>
        simp [h1, h2]
      exfalso
      have e1 : y.1 = k := by simpa using h1
      have e2 : x.1 = k := by simpa using h2
      exact hnodup.1 (Or.inl (e1.trans e2.symm))
    | trans hp1 hp2 ih1 ih2 =>
      intro hnodup k
      rw [ih1 hnodup k]
      exact ih2 (((hp1.map Prod.fst).nodup_iff).mp hnodup) k
  · intro fingerprint esc s ins ins2 items items2 fresh fresh2 hins hitems
    exact ensure_session_id_core_repeat fingerprint esc s ins ins2 items items2
      fresh fresh2 hins hitems

/-- Witness for `c5_canonical_prefix_determines_session`: two calls with
instructions differing only in surrounding whitespace and input lists
differing only after the first user message return the same session id. -/
theorem c5_canonical_prefix_determines_session_witness :
    normInstructions (some "sys") = normInstructions (some " sys ") ∧
    _canonicalize_first_user_message c5Items = _canonicalize_first_user_message c5Items2 ∧
    ensure_session_id (fun x => x) (fun x => x)
        (ensure_session_id (fun x => x) (fun x => x) { entries := [] } (some "sys") c5Items
          Option.none "u1").2 (some " sys ") c5Items2 Option.none "u2" =
      ((ensure_session_id (fun x => x) (fun x => x) { entries := [] } (some "sys") c5Items
          Option.none "u1").1,
       (ensure_session_id (fun x => x) (fun x => x) { entries := [] } (some "sys") c5Items
          Option.none "u1").2) :=
  ⟨by decide, by decide,
    c5_canonical_prefix_determines_session.2.2 (fun x => x) (fun x => x) { entries := [] }
      (some "sys") (some " sys ") c5Items c5Items2 "u1" "u2" (by decide) (by decide)⟩

/-- Replacing the value at key `k` in place leaves every other lookup
unchanged. -/
theorem getKey_map_replace (d : List (String × PyVal)) (k k' : String) (v : PyVal)
    (h : k' ≠ k) :
    getKey (d.map (fun kv => if kv.1 == k then (k, v) else kv)) k' = getKey d k' := by
  induction d with
  | nil => rfl
  | cons kv rest ih =>
    have hkk' : (k == k') = false := by simpa using fun hh => h hh.symm
    simp only [List.map_cons]
    by_cases hk : (kv.1 == k) = true
    · have hkeq : kv.1 = k := by simpa using hk
      simp [getKey_cons, hk, hkeq, hkk']
      simpa using ih
    · have hkf : (kv.1 == k) = false := by simpa using hk
      have ih' : getKey (List.map (fun kv => if kv.1 = k then (k, v) else kv) rest) k' =
          getKey rest k' := by simpa using ih
      simp [getKey_cons, hkf, ih']

/-- `setKey` at key `k` leaves every other lookup unchanged. -/
theorem getKey_setKey_of_ne (d : List (String × PyVal)) (k k' : String) (v : PyVal)
    (h : k' ≠ k) : getKey (setKey d k v) k' = getKey d k' := by
  unfold setKey
  split
  · exact getKey_map_replace d k k' v h
  · next ha =>
    clear ha
    have hkk' : (k == k') = false := by simpa using fun hh => h hh.symm
    induction d with
    | nil => simp [getKey_cons, hkk']
    | cons kv rest ih =>
      rw [List.cons_append, getKey_cons, getKey_cons]
      by_cases hv : (kv.1 == k') = true
      · simp [hv]
      · have hvf : (kv.1 == k') = false := by simpa using hv
        simp [hvf, ih]

/-- Unfolding the merge loop over a cons cell. -/
theorem mergeExtraFields_cons (d : List (String × PyVal)) (kv : String × PyVal)
    (rest : List (String × PyVal)) :
    mergeExtraFields d (kv :: rest) =
      if kv.1 = "stream" ∨ kv.1 = "store" then mergeExtraFields d rest
      else mergeExtraFields (setKey d kv.1 kv.2) rest := by
  by_cases hskip : kv.1 = "stream" ∨ kv.1 = "store" <;>
    simp [mergeExtraFields, List.foldl_cons, hskip]

/-- The merge loop never touches the `store` and `stream` keys. -/
theorem getKey_mergeExtraFields_skipped (ef : List (String × PyVal))
    (d : List (String × PyVal)) (k : String) (hk : k = "store" ∨ k = "stream") :
    getKey (mergeExtraFields d ef) k = getKey d k := by
  induction ef generalizing d with
  | nil => rfl
  | cons kv rest ih =>
    rw [mergeExtraFields_cons]
    by_cases hskip : kv.1 = "stream" ∨ kv.1 = "store"
    · rw [if_pos hskip]
      exact ih d
    · rw [if_neg hskip]
      have hne : k ≠ kv.1 := by
        rcases hk with h | h <;> rw [h] <;> intro hh <;> exact hskip (by simp [← hh])
      rw [ih (setKey d kv.1 kv.2)]
      exact getKey_setKey_of_ne d kv.1 k kv.2 hne

/-- The merge loop only sees the entries that pass the `stream`/`store`
skip. -/
theorem mergeExtraFields_filter (ef : List (String × PyVal)) (d : List (String × PyVal)) :
    mergeExtraFields d ef = mergeExtraFields d (ef.filter nonStreamStore) := by
  induction ef generalizing d with
  | nil => rfl
  | cons kv rest ih =>
    by_cases hskip : kv.1 = "stream" ∨ kv.1 = "store"
    · have hf : nonStreamStore kv = false := by
        simp only [nonStreamStore]
        rcases hskip with h | h <;> simp [h]
      rw [mergeExtraFields_cons, if_pos hskip, List.filter_cons, hf]
      simp only [Bool.false_eq_true, if_false]
      exact ih d
    · have hf : nonStreamStore kv = true := by
        simp only [not_or] at hskip
        simp [nonStreamStore, hskip.1, hskip.2]
      rw [mergeExtraFields_cons, if_neg hskip, List.filter_cons, hf]
      simp only [if_true]
      rw [mergeExtraFields_cons, if_neg hskip]
      exact ih (setKey d kv.1 kv.2)

/-- Filtering out the `stream`/`store` entries does not change the
`include` lookup. -/
theorem getKey_filter_include (ef : List (String × PyVal)) :
    getKey (ef.filter nonStreamStore) "include" = getKey ef "include" := by
  induction ef with
  | nil => rfl
  | cons kv rest ih =>
    rw [List.filter_cons]
    by_cases hf : nonStreamStore kv = true
    · rw [hf]
      simp only [if_true]
      rw [getKey_cons, getKey_cons]
      by_cases hv : (kv.1 == "include") = true
      · simp [hv]
      · have hvf : (kv.1 == "include") = false := by simpa using hv
        simp [hvf, ih]
    · have hff : nonStreamStore kv = false := by simpa using hf
      rw [hff]
      simp only [Bool.false_eq_true, if_false]
      rw [getKey_cons]
      have h2 : ¬kv.1 = "stream" → kv.1 = "store" := by
        have h3 := hff
        unfold nonStreamStore at h3
        simpa using h3
      have hv : (kv.1 == "include") = false := by
        by_cases hs : kv.1 = "stream"
        · simp [hs]
        · simp [h2 hs]
      simp [hv, ih]

/-- A lookup that succeeds in the front list survives an append. -/
theorem getKey_append_of_some (l1 l2 : List (String × PyVal)) (k : String) (v : PyVal)
    (h : getKey l1 k = some v) : getKey (l1 ++ l2) k = some v := by
  induction l1 with
  | nil => simp [getKey] at h
  | cons kv rest ih =>
    rw [List.cons_append, getKey_cons]
    rw [getKey_cons] at h
    by_cases hv : (kv.1 == k) = true
    · rw [if_pos hv] at h
      rw [if_pos hv]
      exact h
    · rw [if_neg hv] at h
      rw [if_neg hv]
      exact ih h

/-- Extra fields that agree outside `stream`/`store` produce the same
`include` list. -/
theorem includeListOf_eq (ef1 ef2 : Option (List (String × PyVal)))
    (r : Option (List (String × PyVal)))
    (h : (ef1.getD []).filter nonStreamStore = (ef2.getD []).filter nonStreamStore) :
    includeListOf ef1 r = includeListOf ef2 r := by
  have hi : getKey (ef1.getD []) "include" = getKey (ef2.getD []) "include" := by
    rw [← getKey_filter_include (ef1.getD []), h, getKey_filter_include]
  cases ef1 with
  | none =>
    cases ef2 with
    | none => rfl
    | some l2 =>
      simp only [Option.getD_some, Option.getD_none] at hi
      simp only [includeListOf]
      rw [← hi]
      rfl
  | some l1 =>
    cases ef2 with
    | none =>
      simp only [Option.getD_some, Option.getD_none] at hi
      simp only [includeListOf]
      rw [hi]
      rfl
    | some l2 =>
      simp only [Option.getD_some] at hi
      simp only [includeListOf]
      rw [hi]

/-- The full payload is the base payload merged with the (possibly absent)
extra fields. -/
theorem start_upstream_request_payload_eq (model : String) (inputItems : List PyVal)
    (instructions : Option String) (tools : Option (List PyVal)) (toolChoice : PyVal)
    (par : Bool) (reasoningParam : Option (List (String × PyVal)))
    (ef : Option (List (String × PyVal))) (sessionId : String) :
    start_upstream_request_payload model inputItems instructions tools toolChoice par
        reasoningParam ef sessionId =
      mergeExtraFields (upstreamBasePayload model inputItems instructions tools toolChoice par
        reasoningParam ef sessionId) (ef.getD []) := by
  cases ef <;> rfl

/-- The `store` and `stream` entries of the base payload are the hard-coded
constants. -/
theorem upstreamBasePayload_store_stream (model : String) (inputItems : List PyVal)
    (instructions : Option String) (tools : Option (List PyVal)) (toolChoice : PyVal)
    (par : Bool) (reasoningParam : Option (List (String × PyVal)))
    (ef : Option (List (String × PyVal))) (sessionId : String) :
    getKey (upstreamBasePayload model inputItems instructions tools toolChoice par
        reasoningParam ef sessionId) "store" = some (.bool false) ∧
    getKey (upstreamBasePayload model inputItems instructions tools toolChoice par
        reasoningParam ef sessionId) "stream" = some (.bool true) := by
  simp only [upstreamBasePayload]
  constructor
  · cases reasoningParam with
    | none =>
      by_cases hinc : includeListOf ef Option.none ≠ []
      · rw [if_pos hinc]
        exact getKey_append_of_some _ _ _ _ rfl
      · rw [if_neg hinc]
        rfl
    | some r =>
      by_cases hinc : includeListOf ef (some r) ≠ []
      · rw [if_pos hinc]
        exact getKey_append_of_some _ _ _ _ (getKey_append_of_some _ _ _ _ rfl)
      · rw [if_neg hinc]
        exact getKey_append_of_some _ _ _ _ rfl
  · cases reasoningParam with
    | none =>
      by_cases hinc : includeListOf ef Option.none ≠ []
      · rw [if_pos hinc]
        exact getKey_append_of_some _ _ _ _ rfl
      · rw [if_neg hinc]
        rfl
    | some r =>
      by_cases hinc : includeListOf ef (some r) ≠ []
      · rw [if_pos hinc]
        exact getKey_append_of_some _ _ _ _ (getKey_append_of_some _ _ _ _ rfl)
      · rw [if_neg hinc]
        exact getKey_append_of_some _ _ _ _ rfl

/-- Claim C8: the upstream payload always carries `store = false` and
`stream = true`, whatever the client put in `extra_fields`; and two calls
whose `extra_fields` differ only in their `store`/`stream` entries produce
identical payloads — those keys are never forwarded. -/
theorem c8_store_stream_never_forwarded (model : String) (inputItems : List PyVal)
    (instructions : Option String) (tools : Option (List PyVal)) (toolChoice : PyVal)
    (par : Bool) (reasoningParam ef1 ef2 : Option (List (String × PyVal)))
    (sessionId : String) :
    getKey (start_upstream_request_payload model inputItems instructions tools toolChoice par
        reasoningParam ef1 sessionId) "store" = some (.bool false) ∧
    getKey (start_upstream_request_payload model inputItems instructions tools toolChoice par
        reasoningParam ef1 sessionId) "stream" = some (.bool true) ∧
    ((ef1.getD []).filter nonStreamStore = (ef2.getD []).filter nonStreamStore →
      start_upstream_request_payload model inputItems instructions tools toolChoice par
          reasoningParam ef1 sessionId =
        start_upstream_request_payload model inputItems instructions tools toolChoice par
          reasoningParam ef2 sessionId) := by
  refine ⟨?_, ?_, ?_⟩
  · rw [start_upstream_request_payload_eq]
    rw [getKey_mergeExtraFields_skipped _ _ _ (Or.inl rfl)]
    exact (upstreamBasePayload_store_stream model inputItems instructions tools toolChoice par
      reasoningParam ef1 sessionId).1
  · rw [start_upstream_request_payload_eq]
    rw [getKey_mergeExtraFields_skipped _ _ _ (Or.inr rfl)]
    exact (upstreamBasePayload_store_stream model inputItems instructions tools toolChoice par
      reasoningParam ef1 sessionId).2
  · intro hf
    have hinc := includeListOf_eq ef1 ef2 reasoningParam hf
    have hbase : upstreamBasePayload model inputItems instructions tools toolChoice par
        reasoningParam ef1 sessionId =
        upstreamBasePayload model inputItems instructions tools toolChoice par
          reasoningParam ef2 sessionId := by
      simp only [upstreamBasePayload, hinc]
    rw [start_upstream_request_payload_eq, start_upstream_request_payload_eq, hbase,
      mergeExtraFields_filter, hf, ← mergeExtraFields_filter]

/-- Witness for `c8_store_stream_never_forwarded`: two `extra_fields` dicts,
one trying `store: true`, the other `stream: false`, both carrying the same
`temperature`, yield identical payloads. -/
theorem c8_store_stream_never_forwarded_witness :
    ((some [("store", PyVal.bool true), ("temperature", PyVal.int 1)] :
        Option (List (String × PyVal))).getD []).filter nonStreamStore =
      ((some [("stream", PyVal.bool false), ("temperature", PyVal.int 1)] :
        Option (List (String × PyVal))).getD []).filter nonStreamStore ∧
    start_upstream_request_payload "gpt-5" [] Option.none Option.none (PyVal.str "auto") false
        Option.none (some [("store", PyVal.bool true), ("temperature", PyVal.int 1)]) "sid" =
      start_upstream_request_payload "gpt-5" [] Option.none Option.none (PyVal.str "auto") false
        Option.none (some [("stream", PyVal.bool false), ("temperature", PyVal.int 1)]) "sid" :=
  ⟨rfl,
    (c8_store_stream_never_forwarded "gpt-5" [] Option.none Option.none (PyVal.str "auto") false
      Option.none (some [("store", PyVal.bool true), ("temperature", PyVal.int 1)])
      (some [("stream", PyVal.bool false), ("temperature", PyVal.int 1)]) "sid").2.2 rfl⟩

/-- Claim C9: when the first upstream call returns an error status and the
request had opted into the passthrough (`responses_tools`) tool set, exactly
one retry is issued, without the passthrough tools; if the retry also fails
the original error body is returned, with the distinguishing code
`RESPONSES_TOOLS_REJECTED` filled in when the backend supplied none; and a
request that did not opt into passthrough tools is never retried, while a
successful first call issues exactly one request. -/
theorem c9_passthrough_single_retry (baseTools extraTools : List PyVal)
    (r2 : UpstreamResult) (s1 : Nat) (origBody : UpstreamErrorBody) :
    (400 ≤ s1 → extraTools ≠ [] →
      (chat_completions_upstream_flow baseTools extraTools (.ok s1) r2 origBody).1 =
        [baseTools ++ extraTools, baseTools] ∧
      (∀ s2, r2 = .ok s2 → 400 ≤ s2 →
        (chat_completions_upstream_flow baseTools extraTools (.ok s1) r2 origBody).2 =
          .errorResponse origBody.message
            (some (origBody.code.getD "RESPONSES_TOOLS_REJECTED")) s2) ∧
      (r2 = .startError →
        (chat_completions_upstream_flow baseTools extraTools (.ok s1) r2 origBody).2 =
          .errorResponse origBody.message
            (some (origBody.code.getD "RESPONSES_TOOLS_REJECTED")) s1)) ∧
    (400 ≤ s1 → extraTools = [] →
      (chat_completions_upstream_flow baseTools extraTools (.ok s1) r2 origBody).1 =
        [baseTools ++ extraTools] ∧
      (chat_completions_upstream_flow baseTools extraTools (.ok s1) r2 origBody).2 =
        .errorResponse origBody.message origBody.code s1) ∧
    (s1 < 400 →
      (chat_completions_upstream_flow baseTools extraTools (.ok s1) r2 origBody).1 =
        [baseTools ++ extraTools] ∧
      (chat_completions_upstream_flow baseTools extraTools (.ok s1) r2 origBody).2 =
        .streamed false) := by
  have hlt : 400 ≤ s1 → ¬ (s1 < 400) := by omega
  refine ⟨?_, ?_, ?_⟩
  · intro hs1 hext
    have hne : extraTools.isEmpty = false := by
      cases extraTools with
      | nil => exact absurd rfl hext
      | cons a l => rfl
    refine ⟨?_, ?_, ?_⟩
    · simp only [chat_completions_upstream_flow, if_neg (hlt hs1), hne]
      cases r2 with
      | startError => rfl
      | ok s2 => by_cases h2 : s2 < 400 <;> simp [h2]
    · intro s2 hr2 hs2
      subst hr2
      simp only [chat_completions_upstream_flow, if_neg (hlt hs1), hne]
      have h2 : ¬ (s2 < 400) := by omega
      simp [h2]
    · intro hr2
      subst hr2
      simp [chat_completions_upstream_flow, if_neg (hlt hs1), hne]
  · intro hs1 hext
    subst hext
    simp [chat_completions_upstream_flow, if_neg (hlt hs1), List.isEmpty]
  · intro hs1
    simp [chat_completions_upstream_flow, hs1]

/-- Witness for `c9_passthrough_single_retry`: a request with one
passthrough web-search tool hits a 400, is retried once without it, the
retry also returns 400, and the original error message comes back with the
distinguishing code. -/
theorem c9_passthrough_single_retry_witness :
    (400 ≤ 400) ∧ ([PyVal.dict [("type", PyVal.str "web_search")]] ≠ ([] : List PyVal)) ∧
    (chat_completions_upstream_flow [] [PyVal.dict [("type", PyVal.str "web_search")]]
        (.ok 400) (.ok 400) { message := "bad", code := Option.none }).1 =
      [[] ++ [PyVal.dict [("type", PyVal.str "web_search")]], []] ∧
    (chat_completions_upstream_flow [] [PyVal.dict [("type", PyVal.str "web_search")]]
        (.ok 400) (.ok 400) { message := "bad", code := Option.none }).2 =
      .errorResponse "bad" (some ((Option.none : Option String).getD "RESPONSES_TOOLS_REJECTED")) 400 :=
  ⟨le_refl 400, by simp,
    ((c9_passthrough_single_retry [] [PyVal.dict [("type", PyVal.str "web_search")]]
        (.ok 400) 400 { message := "bad", code := Option.none }).1 (le_refl 400)
        (by simp)).1,
    (((c9_passthrough_single_retry [] [PyVal.dict [("type", PyVal.str "web_search")]]
        (.ok 400) 400 { message := "bad", code := Option.none }).1 (le_refl 400)
        (by simp)).2.1 400 rfl (le_refl 400))⟩

/-- The bracketed mode is not the structured mode. -/
theorem thinkTags_ne_o3 : ("think-tags" : String) ≠ "o3" := by decide

/-- Shape invariant of the bracketed-mode translator: from any state, the
subsequence of think markers and terminal sentinel that a run emits is one
of the shapes allowed for that state's bracket flags. -/
theorem chatMarkers_shape (iu : Bool) :
    ∀ (evs : List ChatSseEvent) (o c sa pp : Bool),
      AllowedMarkers ((sse_translate_chat "think-tags" iu
          { thinkOpen := o, thinkClosed := c, sawAnySummary := sa,
            pendingSummaryParagraph := pp } evs).filter isBracketKeyChunk) o c := by
  intro evs
  induction evs with
  | nil =>
    intro o c sa pp
    cases o <;> cases c <;> simp [sse_translate_chat, AllowedMarkers]
  | cons e rest ih =>
    intro o c sa pp
    cases e with
    | outputTextDelta d =>
      cases c with
      | true =>
        simpa [sse_translate_chat, sse_translate_chat_step, isBracketKeyChunk]
          using ih o true sa pp
      | false =>
        cases o with
        | false =>
          simpa [sse_translate_chat, sse_translate_chat_step, isBracketKeyChunk]
            using ih false false sa pp
        | true =>
          have hstep : sse_translate_chat "think-tags" iu
              { thinkOpen := true, thinkClosed := false, sawAnySummary := sa,
                pendingSummaryParagraph := pp } (ChatSseEvent.outputTextDelta d :: rest) =
              ChatChunk.thinkCloseMarker :: ChatChunk.contentDelta d ::
                sse_translate_chat "think-tags" iu
                  { thinkOpen := false, thinkClosed := true, sawAnySummary := sa,
                    pendingSummaryParagraph := pp } rest := rfl
          rw [hstep]
          have h := ih false true sa pp
          simp only [AllowedMarkers] at h ⊢
          rcases h with h | h <;> simp [List.filter_cons, isBracketKeyChunk, h]
    | reasoningSummaryTextDelta d =>
      cases c with
      | true =>
        simpa [sse_translate_chat, sse_translate_chat_step, reasoningDeltaStep,
          thinkTags_ne_o3, isBracketKeyChunk] using ih o true sa pp
      | false =>
        cases o with
        | true =>
          cases pp <;>
            simpa [sse_translate_chat, sse_translate_chat_step, reasoningDeltaStep,
              thinkTags_ne_o3, isBracketKeyChunk] using ih true false sa false
        | false =>
          have h := ih true false sa false
          simp only [AllowedMarkers] at h
          cases pp with
          | true =>
            have hstep : sse_translate_chat "think-tags" iu
                { thinkOpen := false, thinkClosed := false, sawAnySummary := sa,
                  pendingSummaryParagraph := true }
                (ChatSseEvent.reasoningSummaryTextDelta d :: rest) =
                ChatChunk.thinkOpenMarker :: ChatChunk.contentDelta "\n" ::
                  ChatChunk.contentDelta d ::
                  sse_translate_chat "think-tags" iu
                    { thinkOpen := true, thinkClosed := false, sawAnySummary := sa,
                      pendingSummaryParagraph := false } rest := rfl
            rw [hstep]
            simp only [AllowedMarkers]
            rcases h with h | h | h <;> simp [List.filter_cons, isBracketKeyChunk, h]
          | false =>
            have hstep : sse_translate_chat "think-tags" iu
                { thinkOpen := false, thinkClosed := false, sawAnySummary := sa,
                  pendingSummaryParagraph := false }
                (ChatSseEvent.reasoningSummaryTextDelta d :: rest) =
                ChatChunk.thinkOpenMarker :: ChatChunk.contentDelta d ::
                  sse_translate_chat "think-tags" iu
                    { thinkOpen := true, thinkClosed := false, sawAnySummary := sa,
                      pendingSummaryParagraph := false } rest := rfl
            rw [hstep]
            simp only [AllowedMarkers]
            rcases h with h | h | h <;> simp [List.filter_cons, isBracketKeyChunk, h]
    | reasoningTextDelta d =>
      cases c with
      | true =>
        simpa [sse_translate_chat, sse_translate_chat_step, reasoningDeltaStep,
          thinkTags_ne_o3, isBracketKeyChunk] using ih o true sa pp
      | false =>
        cases o with
        | true =>
          simpa [sse_translate_chat, sse_translate_chat_step, reasoningDeltaStep,
            thinkTags_ne_o3, isBracketKeyChunk] using ih true false sa pp
        | false =>
          have h := ih true false sa pp
          simp only [AllowedMarkers] at h
          have hstep : sse_translate_chat "think-tags" iu
              { thinkOpen := false, thinkClosed := false, sawAnySummary := sa,
                pendingSummaryParagraph := pp }
              (ChatSseEvent.reasoningTextDelta d :: rest) =
              ChatChunk.thinkOpenMarker :: ChatChunk.contentDelta d ::
                sse_translate_chat "think-tags" iu
                  { thinkOpen := true, thinkClosed := false, sawAnySummary := sa,
                    pendingSummaryParagraph := pp } rest := rfl
          rw [hstep]
          simp only [AllowedMarkers]
          rcases h with h | h | h <;> simp [List.filter_cons, isBracketKeyChunk, h]
    | reasoningSummaryPartAdded =>
      cases sa with
      | false =>
        simpa [sse_translate_chat, sse_translate_chat_step, isBracketKeyChunk]
          using ih o c true pp
      | true =>
        simpa [sse_translate_chat, sse_translate_chat_step, isBracketKeyChunk]
          using ih o c true true
    | outputItemDoneCall cid name args =>
      simpa [sse_translate_chat, sse_translate_chat_step, isBracketKeyChunk]
        using ih o c sa pp
    | outputItemDoneOther =>
      simpa [sse_translate_chat, sse_translate_chat_step, isBracketKeyChunk]
        using ih o c sa pp
    | outputTextDone =>
      simpa [sse_translate_chat, sse_translate_chat_step, isBracketKeyChunk]
        using ih o c sa pp
    | webSearchCall cid args fin =>
      cases fin <;>
        simpa [sse_translate_chat, sse_translate_chat_step, isBracketKeyChunk]
          using ih o c sa pp
    | failed m =>
      simpa [sse_translate_chat, sse_translate_chat_step, isBracketKeyChunk]
        using ih o c sa pp
    | completed hasUsage =>
      cases o <;> cases c <;> cases hasUsage <;> cases iu <;>
        simp [sse_translate_chat, sse_translate_chat_step, isBracketKeyChunk,
          AllowedMarkers]
    | doneSentinel =>
      cases o <;> cases c <;>
        simp [sse_translate_chat, sse_translate_chat_step, isBracketKeyChunk,
          AllowedMarkers]
    | unknown =>
      simpa [sse_translate_chat, sse_translate_chat_step, isBracketKeyChunk]
        using ih o c sa pp

/-- Claim C3: in bracketed (think-tags) mode, for every backend event
sequence, the subsequence of open/close markers and terminal `[DONE]`
sentinel emitted by the translator is one of `[]`, `[DONE]`, `[open]`,
`[open, close]`, `[open, close, DONE]`; consequently, whenever the open
marker is emitted and the terminal `[DONE]` is emitted, exactly one close
marker is emitted, strictly after the open marker and strictly before the
`[DONE]` sentinel, and no marker of either kind is ever emitted after the
close marker — even when no output-text delta arrives before
`response.completed`. -/
theorem c3_bracketed_markers (iu : Bool) (evs : List ChatSseEvent) :
    AllowedMarkers
      ((sse_translate_chat "think-tags" iu chatInitState evs).filter isBracketKeyChunk)
      false false ∧
    (ChatChunk.thinkOpenMarker ∈ sse_translate_chat "think-tags" iu chatInitState evs →
      ChatChunk.doneMarker ∈ sse_translate_chat "think-tags" iu chatInitState evs →
      (sse_translate_chat "think-tags" iu chatInitState evs).filter isBracketKeyChunk =
        [ChatChunk.thinkOpenMarker, ChatChunk.thinkCloseMarker, ChatChunk.doneMarker]) := by
  have h : AllowedMarkers
      ((sse_translate_chat "think-tags" iu chatInitState evs).filter isBracketKeyChunk)
      false false := chatMarkers_shape iu evs false false false false
  refine ⟨h, ?_⟩
  intro h1 h2
  have hopen : ChatChunk.thinkOpenMarker ∈
      (sse_translate_chat "think-tags" iu chatInitState evs).filter isBracketKeyChunk :=
    List.mem_filter.mpr ⟨h1, rfl⟩
  have hdone : ChatChunk.doneMarker ∈
      (sse_translate_chat "think-tags" iu chatInitState evs).filter isBracketKeyChunk :=
    List.mem_filter.mpr ⟨h2, rfl⟩
  simp only [AllowedMarkers] at h
  rcases h with h | h | h | h | h
  · rw [h] at hopen
    simp at hopen
  · rw [h] at hopen
    simp at hopen
  · rw [h] at hdone
    simp at hdone
  · rw [h] at hdone
    simp at hdone
  · exact h

/-- Witness for `c3_bracketed_markers`: a stream consisting of a single
reasoning delta followed by `response.completed` — no output text ever
arrives — emits the open marker, then the close marker, then `[DONE]`. -/
theorem c3_bracketed_markers_witness :
    ChatChunk.thinkOpenMarker ∈ sse_translate_chat "think-tags" false chatInitState
      [ChatSseEvent.reasoningTextDelta "x", ChatSseEvent.completed false] ∧
    ChatChunk.doneMarker ∈ sse_translate_chat "think-tags" false chatInitState
      [ChatSseEvent.reasoningTextDelta "x", ChatSseEvent.completed false] ∧
    (sse_translate_chat "think-tags" false chatInitState
        [ChatSseEvent.reasoningTextDelta "x", ChatSseEvent.completed false]).filter
        isBracketKeyChunk =
      [ChatChunk.thinkOpenMarker, ChatChunk.thinkCloseMarker, ChatChunk.doneMarker] :=
  ⟨by decide, by decide,
    (c3_bracketed_markers false
      [ChatSseEvent.reasoningTextDelta "x", ChatSseEvent.completed false]).2
      (by decide) (by decide)⟩
